import Mathlib

/-!
Shallow embedding of the authentication core of the repository
(week7/auth.py, week8/app/services/user_service.py, week10/app/auth.py,
week11/services/auth_manager.py), together with theorems settling the
spec claims about it.

Files and SQL tables are modelled as explicit association lists that are
passed in and returned; `time.time()` is modelled as an integer-seconds
parameter `now` (the claims compare whole-second thresholds only); the random salt drawn by `bcrypt.gensalt()` and the random
bytes drawn by `secrets.token_hex` are explicit parameters.
-/

/-- Modelled from the spec: the external bcrypt library (`bcrypt.hashpw`) is
not part of src/. Per the spec, `hash` "applies a randomized salted one-way
hashing algorithm ... returns an opaque string encoding algorithm, salt, and
digest". The model encodes the salt (drawn per call by `gensalt`) and a
digest that determines the password, separated by the sentinel character
that also heads the string; collisions between digests of distinct
passwords are abstracted away (the model is collision-free). -/
def bcrypt_hashpw (pw : String) (salt : Nat) : String :=
  ⟨'$' :: (List.replicate salt 's' ++ '$' :: pw.data)⟩

/-- Parse the model hash string back into salt and digest; `none` on any
string not produced by `bcrypt_hashpw` (a malformed hash). -/
def bcrypt_parse (h : String) : Option (Nat × List Char) :=
  match h.data with
  | '$' :: rest =>
    match rest.dropWhile (fun c => c == 's') with
    | '$' :: d => some ((rest.takeWhile (fun c => c == 's')).length, d)
    | _ => none
  | _ => none

/-- Modelled from the spec: the external `bcrypt.checkpw` is not part of
src/. Per the spec, verify "recomputes the hash deterministically from the
embedded salt and compares"; on a malformed hash the library raises
(week10's `verify_password` wraps it in try/except for exactly this
reason), modelled as `Except.error`. -/
def bcrypt_checkpw (pw : String) (hashed : String) : Except Unit Bool :=
  match bcrypt_parse hashed with
  | none => .error ()
  | some (salt, _) => .ok (bcrypt_hashpw pw salt == hashed)

/-- week10/app/auth.py `hash_password`: bcrypt-hash with a fresh salt. -/
def hash_password (password : String) (salt : Nat) : String :=
  bcrypt_hashpw password salt

/-- week10/app/auth.py `verify_password`: try/except around
`bcrypt.checkpw`, returning `False` when it raises. week11's
`PasswordHasher.verify_password` is identical. -/
def verify_password (password : String) (hashed : String) : Bool :=
  match bcrypt_checkpw password hashed with
  | .ok b => b
  | .error _ => false

/-- week7/auth.py `make_hash`: bcrypt-hash with a fresh salt. -/
def make_hash (password : String) (salt : Nat) : String :=
  bcrypt_hashpw password salt

/-- week7/auth.py `check_hash`: calls `bcrypt.checkpw` directly, with no
exception handling: a malformed hash propagates the library error. -/
def check_hash (password : String) (hashed : String) : Except Unit Bool :=
  bcrypt_checkpw password hashed

/-- Modelled from the spec: the external hashlib library (`hashlib.sha256
(...).hexdigest()`) is not part of src/. The spec's Hasher is one-way and
opaque; what matters for the claims is that sha256 draws no salt, so the
digest is a pure function of the password alone. The digest itself is
abstracted as an opaque sentinel encoding of the input. -/
def sha256_hexdigest (s : String) : String :=
  ⟨'#' :: s.data⟩

/-- week9 /app/Home.py `hash_password`:
`hashlib.sha256(password.encode()).hexdigest()`. Unlike the bcrypt-backed
variants this draws no salt; so that determinism across runs is a
statement rather than a modelling artifact, the model receives the salt
the environment would offer a salted hasher and, like the source, never
uses it. -/
def week9_hash_password (_salt : Nat) (password : String) : String :=
  sha256_hexdigest password

/- Helper lemmas about the bcrypt model. -/

theorem dropWhile_replicate_marker (n : Nat) (d : List Char) :
    (List.replicate n 's' ++ '$' :: d).dropWhile (fun c => c == 's') = '$' :: d := by
  induction n with
  | zero => simp [List.dropWhile]
  | succ k ih => simp [List.replicate_succ, List.dropWhile, ih]

theorem takeWhile_replicate_marker (n : Nat) (d : List Char) :
    (List.replicate n 's' ++ '$' :: d).takeWhile (fun c => c == 's')
      = List.replicate n 's' := by
  induction n with
  | zero => simp [List.takeWhile]
  | succ k ih => simp [List.replicate_succ, List.takeWhile, ih]

/-- Round trip: parsing a well-formed model hash recovers salt and digest. -/
theorem bcrypt_parse_hashpw (pw : String) (salt : Nat) :
    bcrypt_parse (bcrypt_hashpw pw salt) = some (salt, pw.data) := by
  simp [bcrypt_parse, bcrypt_hashpw, dropWhile_replicate_marker,
    takeWhile_replicate_marker]

theorem bcrypt_hashpw_inj (p1 p2 : String) (s1 s2 : Nat)
    (h : bcrypt_hashpw p1 s1 = bcrypt_hashpw p2 s2) : s1 = s2 ∧ p1 = p2 := by
  have hp := bcrypt_parse_hashpw p1 s1
  rw [h, bcrypt_parse_hashpw] at hp
  obtain ⟨hs, hd⟩ : s2 = s1 ∧ p2.data = p1.data := by
    have := Option.some.inj hp
    exact ⟨congrArg Prod.fst this, congrArg Prod.snd this⟩
  exact ⟨hs.symm, String.ext hd.symm⟩

theorem checkpw_hashpw (p q : String) (salt : Nat) :
    bcrypt_checkpw p (bcrypt_hashpw q salt) = .ok (p == q) := by
  rw [bcrypt_checkpw, bcrypt_parse_hashpw]
  rcases eq_or_ne p q with h | h
  · simp [h]
  · have : bcrypt_hashpw p salt ≠ bcrypt_hashpw q salt := by
      intro hc
      exact h (bcrypt_hashpw_inj p q salt salt hc).2
    simp [this, h]

/- Character-class predicates modelling the regex searches in the source.
`re.search(r"[A-Z]", s)` is true iff some character of `s` lies in A-Z,
and similarly for the other classes; `re.match(r"^[A-Za-z0-9_]+$", s)`
is true iff `s` is nonempty and every character is a letter, digit or
underscore. -/

def isWordChar (c : Char) : Bool :=
  ('A' ≤ c && c ≤ 'Z') || ('a' ≤ c && c ≤ 'z') || ('0' ≤ c && c ≤ '9') || c == '_'

def hasUpper (s : String) : Bool := s.data.any (fun c => 'A' ≤ c && c ≤ 'Z')

def hasLower (s : String) : Bool := s.data.any (fun c => 'a' ≤ c && c ≤ 'z')

def hasDigit (s : String) : Bool := s.data.any (fun c => '0' ≤ c && c ≤ '9')

/-- The special characters of the regex `[!@#$%^&*(),.?\":\x7b\x7d|<>]`
shared by every iteration. -/
def specialChars : List Char :=
  ['!', '@', '#', '$', '%', '^', '&', '*', '(', ')', ',', '.', '?', '\"',
   ':', '\x7b', '\x7d', '|', '<', '>']

def hasSpecial (s : String) : Bool := s.data.any (fun c => specialChars.contains c)

/-- week10/app/auth.py `validate_username` (identical in
week11 `AuthManager.validate_username`). -/
def validate_username (username : String) : Bool × String :=
  if username.isEmpty then (false, "Username cannot be empty.")
  else if username.length < 3 || username.length > 20 then
    (false, "Username must be 3-20 characters.")
  else if !(username.length > 0 && username.data.all isWordChar) then
    (false, "Only letters, numbers, and _ allowed.")
  else (true, "")

/-- week7/auth.py `username_ok`. -/
def username_ok (user : String) : Bool × String :=
  if !(3 ≤ user.length && user.length ≤ 20) then
    (false, "Username must be between 3-20 characters.")
  else if user.data.contains ' ' then
    (false, "Username cannot contain spaces.")
  else if !(user.length > 0 && user.data.all isWordChar) then
    (false, "Username can contain only letters, numbers, and underscores.")
  else (true, "")

/-- week10/app/auth.py `validate_password` (identical in
week11 `AuthManager.validate_password`). -/
def validate_password (password : String) : Bool × String :=
  if password.length < 6 then (false, "Password must be at least 6 characters.")
  else if !hasUpper password then (false, "Must include uppercase letter.")
  else if !hasLower password then (false, "Must include lowercase letter.")
  else if !hasDigit password then (false, "Must include number.")
  else if !hasSpecial password then (false, "Must include special character.")
  else (true, "")

/-- week7/auth.py `password_ok`. -/
def password_ok (pwd : String) : Bool × String :=
  if !(6 ≤ pwd.length && pwd.length ≤ 50) then
    (false, "Password must be 6-50 characters long.")
  else if !hasUpper pwd then (false, "Include at least one uppercase letter.")
  else if !hasLower pwd then (false, "Include at least one lowercase letter.")
  else if !hasDigit pwd then (false, "Include at least one number.")
  else if !hasSpecial pwd then (false, "Include at least one special character.")
  else (true, "")

/-- The five-criteria strength score shared by week7 `strength`,
week10 `check_password_strength` and week11
`AuthManager.check_password_strength`. -/
def strengthScore (pw : String) : Nat :=
  (if pw.length ≥ 8 then 1 else 0) + (if hasUpper pw then 1 else 0) +
  (if hasLower pw then 1 else 0) + (if hasDigit pw then 1 else 0) +
  (if hasSpecial pw then 1 else 0)

/-- week7/auth.py `strength`:
`["Weak", "Medium", "Strong"][2 if score == 5 else 1 if score >= 3 else 0]`. -/
def strength (pwd : String) : String :=
  if strengthScore pwd == 5 then "Strong"
  else if strengthScore pwd ≥ 3 then "Medium"
  else "Weak"

/-- week10/app/auth.py `check_password_strength` (identical in week11):
`score <= 2` Weak, `score <= 4` Medium, else Strong. -/
def check_password_strength (pw : String) : String :=
  if strengthScore pw ≤ 2 then "Weak"
  else if strengthScore pw ≤ 4 then "Medium"
  else "Strong"

theorem strengthScore_le_five (pw : String) : strengthScore pw ≤ 5 := by
  unfold strengthScore
  split <;> split <;> split <;> split <;> split <;> omega

/- week7/auth.py state model: `users.txt` lines `username,hash,role`,
`failed_attempts.txt` lines `username,count,last_failure_epoch` (a Python
dict once loaded by `load_attempts`). Dict update keeps insertion order:
an existing key is overwritten in place, a new key is appended. -/

abbrev Users := List (String × String × String)

abbrev Attempts := List (String × Nat × Int)

abbrev Sessions := List (String × String × Int)

def lookupA (l : Attempts) (u : String) : Option (Nat × Int) :=
  match l.find? (fun e => e.1 == u) with
  | some e => some e.2
  | none => none

def setA (l : Attempts) (u : String) (v : Nat × Int) : Attempts :=
  if l.any (fun e => e.1 == u) then
    l.map (fun e => if e.1 == u then (u, v) else e)
  else l ++ [(u, v)]

/-- week7/auth.py `MAX_TRIES`. -/
def MAX_TRIES : Nat := 3

/-- week7/auth.py `LOCK_TIME = 5 * 60` seconds. -/
def LOCK_TIME : Int := 5 * 60

/-- The `for entry in read_lines(USER_FILE)` loop of week7 `user_login`:
find the first line whose first field is the username; on a password match
reset the attempt record to `(0, 0)` and succeed; on a mismatch increment
the count (`attempts.get(username, (0, 0))[0] + 1`) with timestamp `now`
and fail; fall through to `False` when the username is not on file. -/
def login_core (chk : String → String → Bool) (users : Users)
    (att : Attempts) (now : Int) (username pwd : String) : Bool × Attempts :=
  match users.find? (fun e => e.1 == username) with
  | some (_, hash_pass, _) =>
    if chk pwd hash_pass then (true, setA att username (0, 0))
    else
      let fail_count := (match lookupA att username with
        | some p => p.1
        | none => 0) + 1
      (false, setA att username (fail_count, now))
  | none => (false, att)

/-- week7/auth.py `user_login`, parametrized by the hash-check function
`chk` (the source calls `check_hash`); the parameter makes the statement
"the locked branch never consults the hasher" expressible. Returns the
result together with the final failed-attempts store (the code writes it
back with `store_attempts` whenever it changes it). -/
def user_loginP (chk : String → String → Bool) (users : Users)
    (attempts : Attempts) (now : Int) (username pwd : String) : Bool × Attempts :=
  match lookupA attempts username with
  | some (tries, last) =>
    if tries ≥ MAX_TRIES ∧ now - last < LOCK_TIME then (false, attempts)
    else if now - last ≥ LOCK_TIME then
      login_core chk users (setA attempts username (0, 0)) now username pwd
    else login_core chk users attempts now username pwd
  | none => login_core chk users attempts now username pwd

/-- week7/auth.py `user_login` with the hasher instantiated to
`check_hash` (treating a library error as a non-match; on the hashes
`register` writes, `check_hash` never errors). -/
def user_login (users : Users) (attempts : Attempts) (now : Int)
    (username pwd : String) : Bool × Attempts :=
  user_loginP (fun p h => match check_hash p h with
    | .ok b => b
    | .error _ => false) users attempts now username pwd

/-- week7/auth.py `register`: scan `users.txt` for the username
(first comma-separated field); if found return False leaving the file
unchanged, else append `username,hash,role`. -/
def register (users : Users) (username pwd role : String) (salt : Nat) :
    Bool × Users :=
  if users.any (fun e => e.1 == username) then (false, users)
  else (true, users ++ [(username, make_hash pwd salt, role)])

/-- week10/app/auth.py `register_user`: `get_user_by_username`; if a row
exists return False, else insert `(username, hash_password password, role)`.
week11 `AuthManager.register_user` is the same check-then-insert. -/
def register_user (users : Users) (username password role : String)
    (salt : Nat) : Bool × Users :=
  if (users.find? (fun e => e.1 == username)).isSome then (false, users)
  else (true, users ++ [(username, hash_password password salt, role)])

/-- week8/app/services/user_service.py `signin`: SELECT by username; if no
row, (False, not found); else `bcrypt.checkpw` directly — a malformed
stored hash propagates the library error. -/
def signin (users : Users) (username pwd : String) :
    Except Unit (Bool × String) :=
  match users.find? (fun e => e.1 == username) with
  | none => .ok (false, "Username not found.")
  | some (_, saved, _) =>
    match bcrypt_checkpw pwd saved with
    | .error e => .error e
    | .ok true => .ok (true, "Welcome back, " ++ username ++ "!")
    | .ok false => .ok (false, "Incorrect password.")

/- Session issuance. `secrets.token_hex(n)` draws n random bytes and
hex-encodes them; the bytes are an explicit parameter here. -/

def hexDigitChar (n : Nat) : Char :=
  if n = 0 then '0' else if n = 1 then '1' else if n = 2 then '2'
  else if n = 3 then '3' else if n = 4 then '4' else if n = 5 then '5'
  else if n = 6 then '6' else if n = 7 then '7' else if n = 8 then '8'
  else if n = 9 then '9' else if n = 10 then 'a' else if n = 11 then 'b'
  else if n = 12 then 'c' else if n = 13 then 'd' else if n = 14 then 'e'
  else 'f'

def byteToHex (b : Fin 256) : List Char :=
  [hexDigitChar (b.val / 16), hexDigitChar (b.val % 16)]

/-- `secrets.token_hex` applied to the drawn bytes. -/
def token_hex (bytes : List (Fin 256)) : String :=
  ⟨bytes.flatMap byteToHex⟩

/-- week7/auth.py `new_session`: `token = secrets.token_hex(20)` (the call
draws 20 random bytes), then append `user,token,timestamp` to
`sessions.txt` and return the token. -/
def new_session (sessions : Sessions) (user : String)
    (bytes : List (Fin 256)) (now : Int) : String × Sessions :=
  let token := token_hex bytes
  (token, sessions ++ [(user, token, now)])

/-- week10/app/auth.py `create_session`: `token = secrets.token_hex(16)`
(16 random bytes) and return it; the function body contains no store
operation, so the session store passes through unchanged. -/
def create_session (sessions : Sessions) (_username : String)
    (bytes : List (Fin 256)) : String × Sessions :=
  (token_hex bytes, sessions)

/- Dictionary lemmas for the failed-attempts store. -/

theorem find?_cons_true {α : Type} (p : α → Bool) (a : α) (l : List α)
    (h : p a = true) : (a :: l).find? p = some a := by
  simp [List.find?, h]

theorem find?_cons_false {α : Type} (p : α → Bool) (a : α) (l : List α)
    (h : p a = false) : (a :: l).find? p = l.find? p := by
  simp [List.find?, h]

theorem map_overwrite_of_any_false (l : Attempts) (u : String) (v : Nat × Int)
    (h : l.any (fun e => e.1 == u) = false) :
    l.map (fun e => if e.1 == u then (u, v) else e) = l := by
  induction l with
  | nil => rfl
  | cons e t ih =>
    simp only [List.any_cons, Bool.or_eq_false_iff] at h
    have he : ¬ e.1 = u := by simpa using h.1
    rw [List.map_cons, ih h.2]
    have hfe : (if e.1 == u then (u, v) else e) = e := by simp [he]
    rw [hfe]

theorem any_map_overwrite (l : Attempts) (u : String) (v : Nat × Int) :
    (l.map (fun e => if e.1 == u then (u, v) else e)).any (fun e => e.1 == u)
      = l.any (fun e => e.1 == u) := by
  induction l with
  | nil => rfl
  | cons e t ih =>
    rw [List.map_cons, List.any_cons, List.any_cons, ih]
    congr 1
    by_cases he : e.1 = u <;> simp [he]

theorem find?_map_overwrite_self (l : Attempts) (u : String) (v : Nat × Int)
    (h : l.any (fun e => e.1 == u) = true) :
    (l.map (fun e => if e.1 == u then (u, v) else e)).find? (fun e => e.1 == u)
      = some (u, v) := by
  induction l with
  | nil => simp at h
  | cons e t ih =>
    by_cases he : e.1 = u
    · have hfe : (if e.1 == u then (u, v) else e) = (u, v) := by simp [he]
      rw [List.map_cons, hfe,
        find?_cons_true (fun e => e.1 == u) (u, v) _ (by simp)]
    · have hfe : (if e.1 == u then (u, v) else e) = e := by simp [he]
      simp only [List.any_cons] at h
      rcases Bool.or_eq_true_iff.mp h with h1 | h2
      · exact absurd h1 (by simp [he])
      · rw [List.map_cons, hfe,
          find?_cons_false (fun e => e.1 == u) e _ (by simp [he])]
        exact ih h2

theorem find?_append_single_self (l : Attempts) (u : String) (v : Nat × Int)
    (h : l.any (fun e => e.1 == u) = false) :
    (l ++ [(u, v)]).find? (fun e => e.1 == u) = some (u, v) := by
  induction l with
  | nil => simp [List.find?]
  | cons e t ih =>
    simp only [List.any_cons, Bool.or_eq_false_iff] at h
    rw [List.cons_append, find?_cons_false (fun e => e.1 == u) e _ h.1]
    exact ih h.2

theorem find?_map_overwrite_other (l : Attempts) (u v : String) (x : Nat × Int)
    (h : v ≠ u) :
    (l.map (fun e => if e.1 == u then (u, x) else e)).find? (fun e => e.1 == v)
      = l.find? (fun e => e.1 == v) := by
  induction l with
  | nil => rfl
  | cons e t ih =>
    by_cases hev : e.1 = v
    · have heu : ¬ e.1 = u := fun hc => h (hev.symm.trans hc)
      have hfe : (if e.1 == u then (u, x) else e) = e := by simp [heu]
      rw [List.map_cons, hfe,
        find?_cons_true (fun e => e.1 == v) e _ (by simp [hev]),
        find?_cons_true (fun e => e.1 == v) e _ (by simp [hev])]
    · by_cases heu : e.1 = u
      · have hfe : (if e.1 == u then (u, x) else e) = (u, x) := by simp [heu]
        have huv : ¬ u = v := fun hc => h hc.symm
        rw [List.map_cons, hfe,
          find?_cons_false (fun e => e.1 == v) (u, x) _ (by simp [huv]),
          find?_cons_false (fun e => e.1 == v) e _ (by simp [hev])]
        exact ih
      · have hfe : (if e.1 == u then (u, x) else e) = e := by simp [heu]
        rw [List.map_cons, hfe,
          find?_cons_false (fun e => e.1 == v) e _ (by simp [hev]),
          find?_cons_false (fun e => e.1 == v) e _ (by simp [hev])]
        exact ih

theorem find?_append_single_other (l : Attempts) (u v : String) (x : Nat × Int)
    (h : v ≠ u) :
    (l ++ [(u, x)]).find? (fun e => e.1 == v) = l.find? (fun e => e.1 == v) := by
  induction l with
  | nil =>
    have huv2 : ¬ u = v := fun hc => h hc.symm
    have huv : ((u : String) == v) = false := by simp [huv2]
    simp [List.find?, huv]
  | cons e t ih =>
    by_cases hev : e.1 = v
    · rw [List.cons_append,
        find?_cons_true (fun e => e.1 == v) e _ (by simp [hev]),
        find?_cons_true (fun e => e.1 == v) e _ (by simp [hev])]
    · rw [List.cons_append,
        find?_cons_false (fun e => e.1 == v) e _ (by simp [hev]),
        find?_cons_false (fun e => e.1 == v) e _ (by simp [hev])]
      exact ih

theorem setA_setA (l : Attempts) (u : String) (v w : Nat × Int) :
    setA (setA l u v) u w = setA l u w := by
  unfold setA
  cases hany : l.any (fun e => e.1 == u) with
  | true =>
    simp only [hany, if_true, any_map_overwrite]
    rw [List.map_map]
    congr 1
    funext e
    by_cases he : e.1 = u <;> simp [he]
  | false =>
    simp only [hany, Bool.false_eq_true, if_false, List.any_append,
      List.any_cons, List.any_nil, beq_self_eq_true, Bool.true_or,
      Bool.or_true, if_true, List.map_append,
      map_overwrite_of_any_false l u w hany]
    simp

theorem lookupA_setA_self (l : Attempts) (u : String) (v : Nat × Int) :
    lookupA (setA l u v) u = some v := by
  unfold setA lookupA
  cases hany : l.any (fun e => e.1 == u) with
  | true => rw [if_pos rfl, find?_map_overwrite_self l u v hany]
  | false => rw [if_neg (by simp), find?_append_single_self l u v hany]

theorem lookupA_setA_other (l : Attempts) (u : String) (x : Nat × Int)
    (v : String) (h : v ≠ u) : lookupA (setA l u x) v = lookupA l v := by
  unfold setA lookupA
  cases hany : l.any (fun e => e.1 == u) with
  | true => rw [if_pos rfl, find?_map_overwrite_other l u v x h]
  | false => rw [if_neg (by simp), find?_append_single_other l u v x h]

/-- C1: Lockout. For a username with a recorded attempt entry
`(tries, last)`: (i) once `tries ≥ MAX_TRIES(=3)`, an attempt with
`now - last < LOCK_TIME(=300)` is rejected with the store unchanged, and
the result is the same for every hash-check function `chk` — the password
hash is never consulted; (ii) once 300 or more seconds have elapsed the
attempt behaves exactly like an attempt made with the failure count reset
to `(0, 0)` (it is then evaluated normally); (iii) a successful login
(username on file, hash check passes, not locked) returns `True` and
resets the count to 0. -/
theorem week7_lockout_C1 (chk : String → String → Bool) (users : Users)
    (attempts : Attempts) (now : Int) (u p : String) (tries : Nat) (last : Int)
    (hA : lookupA attempts u = some (tries, last)) :
    (tries ≥ MAX_TRIES → now - last < LOCK_TIME →
      user_loginP chk users attempts now u p = (false, attempts)) ∧
    (now - last ≥ LOCK_TIME →
      user_loginP chk users attempts now u p
        = user_loginP chk users (setA attempts u (0, 0)) now u p) ∧
    (∀ un hsh r, ¬(tries ≥ MAX_TRIES ∧ now - last < LOCK_TIME) →
      users.find? (fun e => e.1 == u) = some (un, hsh, r) → chk p hsh = true →
      (user_loginP chk users attempts now u p).1 = true ∧
      lookupA (user_loginP chk users attempts now u p).2 u = some (0, 0)) := by
  refine ⟨?_, ?_, ?_⟩
  · intro h1 h2
    simp only [user_loginP, hA]
    rw [if_pos ⟨h1, h2⟩]
  · intro h2
    have hnl : ¬(tries ≥ MAX_TRIES ∧ now - last < LOCK_TIME) := by
      rintro ⟨_, hlt⟩
      omega
    have hn0 : ¬((0 : Nat) ≥ MAX_TRIES ∧ now - (0 : Int) < LOCK_TIME) := by
      rintro ⟨h3, _⟩
      simp [MAX_TRIES] at h3
    simp only [user_loginP, hA, lookupA_setA_self]
    rw [if_neg hnl, if_pos h2, if_neg hn0]
    by_cases hc : now - (0 : Int) ≥ LOCK_TIME
    · rw [if_pos hc, setA_setA]
    · rw [if_neg hc]
  · rintro un hsh r hnl hfind hchk
    simp only [user_loginP, hA]
    rw [if_neg hnl]
    by_cases hel : now - last ≥ LOCK_TIME
    · rw [if_pos hel]
      simp only [login_core, hfind]
      rw [if_pos hchk]
      exact ⟨rfl, lookupA_setA_self _ _ _⟩
    · rw [if_neg hel]
      simp only [login_core, hfind]
      rw [if_pos hchk]
      exact ⟨rfl, lookupA_setA_self _ _ _⟩

/-- C1 witness: with `alice` at 3 recorded failures 10 seconds ago, a 4th
attempt is rejected with the store unchanged even when the hash-check
function would accept everything. -/
theorem week7_lockout_C1_witness :
    user_loginP (fun _ _ => true) [("alice", "h", "user")]
      [("alice", 3, 0)] 10 "alice" "x" = (false, [("alice", 3, 0)]) :=
  (week7_lockout_C1 (fun _ _ => true) [("alice", "h", "user")]
    [("alice", 3, 0)] 10 "alice" "x" 3 0 (by decide)).1 (by decide) (by decide)

theorem login_core_not_found (chk : String → String → Bool) (users : Users)
    (att : Attempts) (now : Int) (u p : String)
    (hfind : users.find? (fun e => e.1 == u) = none) :
    login_core chk users att now u p = (false, att) := by
  simp [login_core, hfind]

theorem login_core_found_fail (chk : String → String → Bool) (users : Users)
    (att : Attempts) (now : Int) (u p un hsh r : String)
    (hfind : users.find? (fun e => e.1 == u) = some (un, hsh, r))
    (hchk : chk p hsh = false) :
    login_core chk users att now u p
      = (false, setA att u ((match lookupA att u with
          | some q => q.1
          | none => 0) + 1, now)) := by
  simp only [login_core, hfind]
  rw [if_neg (by simp [hchk])]

theorem login_core_found_ok (chk : String → String → Bool) (users : Users)
    (att : Attempts) (now : Int) (u p un hsh r : String)
    (hfind : users.find? (fun e => e.1 == u) = some (un, hsh, r))
    (hchk : chk p hsh = true) :
    login_core chk users att now u p = (true, setA att u (0, 0)) := by
  simp only [login_core, hfind]
  rw [if_pos hchk]

theorem login_core_frame (chk : String → String → Bool) (users : Users)
    (att : Attempts) (now : Int) (u p : String) (v : String) (hv : v ≠ u) :
    lookupA (login_core chk users att now u p).2 v = lookupA att v := by
  unfold login_core
  cases hfind : users.find? (fun e => e.1 == u) with
  | none => rfl
  | some e =>
    obtain ⟨un, hsh, r⟩ := e
    dsimp only
    by_cases hchk : chk p hsh
    · rw [if_pos hchk]
      exact lookupA_setA_other _ _ _ _ hv
    · rw [if_neg hchk]
      exact lookupA_setA_other _ _ _ _ hv

/-- C10 (amended): the failed-attempts store after a week7 login attempt,
characterized case by case. For any other username the store's entry is
unchanged; a locked rejection leaves the whole store unchanged; when the
username is absent from the credential store the store is unchanged,
except that an existing entry whose lock window has elapsed is reset to
`(0, 0)`; a failed password check records `(old count + 1, now)` (count
taken after the window-expiry reset, when one fired); and a successful
password check resets the username's entry to `(0, 0)`, whether or not a
prior entry existed. -/
theorem week7_attempts_frame_C10 (chk : String → String → Bool)
    (users : Users) (attempts : Attempts) (now : Int) (u p : String) :
    (∀ v, v ≠ u →
      lookupA (user_loginP chk users attempts now u p).2 v
        = lookupA attempts v) ∧
    (∀ tries last, lookupA attempts u = some (tries, last) →
      tries ≥ MAX_TRIES → now - last < LOCK_TIME →
      (user_loginP chk users attempts now u p).2 = attempts) ∧
    (users.find? (fun e => e.1 == u) = none →
      (lookupA attempts u = none →
        (user_loginP chk users attempts now u p).2 = attempts) ∧
      (∀ tries last, lookupA attempts u = some (tries, last) →
        now - last < LOCK_TIME →
        (user_loginP chk users attempts now u p).2 = attempts) ∧
      (∀ tries last, lookupA attempts u = some (tries, last) →
        now - last ≥ LOCK_TIME →
        (user_loginP chk users attempts now u p).2 = setA attempts u (0, 0))) ∧
    (∀ un hsh r, users.find? (fun e => e.1 == u) = some (un, hsh, r) →
      chk p hsh = false →
      (lookupA attempts u = none →
        (user_loginP chk users attempts now u p).2 = setA attempts u (1, now)) ∧
      (∀ tries last, lookupA attempts u = some (tries, last) →
        ¬(tries ≥ MAX_TRIES ∧ now - last < LOCK_TIME) →
        (now - last ≥ LOCK_TIME →
          (user_loginP chk users attempts now u p).2
            = setA attempts u (1, now)) ∧
        (now - last < LOCK_TIME →
          (user_loginP chk users attempts now u p).2
            = setA attempts u (tries + 1, now)))) ∧
    (∀ un hsh r, users.find? (fun e => e.1 == u) = some (un, hsh, r) →
      chk p hsh = true →
      (lookupA attempts u = none →
        user_loginP chk users attempts now u p
          = (true, setA attempts u (0, 0))) ∧
      (∀ tries last, lookupA attempts u = some (tries, last) →
        ¬(tries ≥ MAX_TRIES ∧ now - last < LOCK_TIME) →
        user_loginP chk users attempts now u p
          = (true, setA attempts u (0, 0)))) := by
  refine ⟨?_, ?_, ?_, ?_, ?_⟩
  · intro v hv
    unfold user_loginP
    cases hA : lookupA attempts u with
    | none => exact login_core_frame chk users attempts now u p v hv
    | some tl =>
      obtain ⟨tries, last⟩ := tl
      dsimp only
      by_cases hlock : tries ≥ MAX_TRIES ∧ now - last < LOCK_TIME
      · rw [if_pos hlock]
      · rw [if_neg hlock]
        by_cases hel : now - last ≥ LOCK_TIME
        · rw [if_pos hel, login_core_frame chk users _ now u p v hv,
            lookupA_setA_other _ _ _ _ hv]
        · rw [if_neg hel]
          exact login_core_frame chk users attempts now u p v hv
  · intro tries last hA h1 h2
    simp only [user_loginP, hA]
    rw [if_pos ⟨h1, h2⟩]
  · intro hfind
    refine ⟨?_, ?_, ?_⟩
    · intro hA
      simp only [user_loginP, hA, login_core_not_found chk users _ now u p hfind]
    · intro tries last hA hlt
      simp only [user_loginP, hA]
      by_cases hlock : tries ≥ MAX_TRIES ∧ now - last < LOCK_TIME
      · rw [if_pos hlock]
      · rw [if_neg hlock, if_neg (by omega),
          login_core_not_found chk users _ now u p hfind]
    · intro tries last hA hel
      simp only [user_loginP, hA]
      rw [if_neg (by omega), if_pos hel,
        login_core_not_found chk users _ now u p hfind]
  · intro un hsh r hfind hchk
    refine ⟨?_, ?_⟩
    · intro hA
      simp only [user_loginP, hA,
        login_core_found_fail chk users attempts now u p un hsh r hfind hchk, hA]
    · intro tries last hA hnl
      refine ⟨?_, ?_⟩
      · intro hel
        simp only [user_loginP, hA]
        rw [if_neg hnl, if_pos hel,
          login_core_found_fail chk users _ now u p un hsh r hfind hchk,
          lookupA_setA_self, setA_setA]
      · intro hlt
        simp only [user_loginP, hA]
        rw [if_neg hnl, if_neg (by omega),
          login_core_found_fail chk users attempts now u p un hsh r hfind hchk,
          hA]
  · intro un hsh r hfind hchk
    refine ⟨?_, ?_⟩
    · intro hA
      simp only [user_loginP, hA,
        login_core_found_ok chk users attempts now u p un hsh r hfind hchk]
    · intro tries last hA hnl
      simp only [user_loginP, hA]
      by_cases hel : now - last ≥ LOCK_TIME
      · rw [if_neg hnl, if_pos hel,
          login_core_found_ok chk users _ now u p un hsh r hfind hchk, setA_setA]
      · rw [if_neg hnl, if_neg hel,
          login_core_found_ok chk users attempts now u p un hsh r hfind hchk]

/-- C10 counterexample to the claim as stated: `"ghost"` is absent from the
credential store, yet a login attempt at `now = 500` with a stale entry
`("ghost", 2, 0)` rewrites the failed-attempts store (the elapsed-window
reset fires), so "a login attempt with a username absent from the
credential store leaves the failed-attempts store unchanged" is false. -/
theorem week7_attempts_frame_C10_counterexample :
    List.find? (fun e => e.1 == "ghost") ([] : Users) = none ∧
    (user_login [] [("ghost", 2, 0)] 500 "ghost" "pw").2 = [("ghost", 0, 0)] ∧
    [("ghost", (2 : Nat), (0 : Int))] ≠ [("ghost", 0, 0)] :=
  ⟨rfl, by decide, by decide⟩

/-- C10 witness: the amended elapsed-window case evaluated at a concrete
input. -/
theorem week7_attempts_frame_C10_witness :
    (user_loginP (fun _ _ => false) [] [("ghost", 2, 0)] 500 "ghost" "pw").2
      = setA [("ghost", 2, 0)] "ghost" (0, 0) :=
  ((week7_attempts_frame_C10 (fun _ _ => false) [] [("ghost", 2, 0)] 500
    "ghost" "pw").2.2.1 rfl).2.2 2 0 (by decide) (by decide)

/- Shared helper: the week10 wrapper on a well-formed hash. -/

theorem verify_password_hashpw (p q : String) (salt : Nat) :
    verify_password p (bcrypt_hashpw q salt) = (p == q) := by
  rw [verify_password, checkpw_hashpw]

/-- C2 counterexample to the claim as stated: `"ab"` fails both
`validate_username` and week7 `username_ok`, yet `register` and
`register_user` succeed on it and store the account — the register
functions do not themselves run the validators (the UI callers do). -/
theorem register_contract_C2_counterexample :
    (validate_username "ab").1 = false ∧ (username_ok "ab").1 = false ∧
    (register [] "ab" "pw" "user" 0).1 = true ∧
    (register_user [] "ab" "pw" "user" 0).1 = true := by
  refine ⟨by decide, by decide, by decide, by decide⟩

/-- C2 (amended): `register` (week7) and `register_user` (week10/week11)
fail exactly when the credential store already contains the username,
leaving the store unchanged, and otherwise append exactly one new account
whose password field is the bcrypt hash of the given password; input
validation is performed by the callers before the call, not by register. -/
theorem register_contract_C2 (users : Users) (username pwd role : String)
    (salt : Nat) :
    (users.any (fun e => e.1 == username) = true →
      register users username pwd role salt = (false, users)) ∧
    (users.any (fun e => e.1 == username) = false →
      register users username pwd role salt
        = (true, users ++ [(username, bcrypt_hashpw pwd salt, role)])) ∧
    ((users.find? (fun e => e.1 == username)).isSome = true →
      register_user users username pwd role salt = (false, users)) ∧
    ((users.find? (fun e => e.1 == username)).isSome = false →
      register_user users username pwd role salt
        = (true, users ++ [(username, bcrypt_hashpw pwd salt, role)])) := by
  refine ⟨?_, ?_, ?_, ?_⟩ <;> intro h <;>
    simp [register, register_user, make_hash, hash_password, h]

/-- C2 witness: on an empty store, registering `alice` succeeds and stores
exactly her account with the hashed password. -/
theorem register_contract_C2_witness :
    register [] "alice" "Secret1!" "user" 4
      = (true, [("alice", bcrypt_hashpw "Secret1!" 4, "user")]) :=
  (register_contract_C2 [] "alice" "Secret1!" "user" 4).2.1 (by decide)

/-- C3 counterexample to the claim as stated: on a malformed hash, week7's
`check_hash` (one of the claim's cited implementations of verify) does not
return `false` — it propagates the bcrypt error; so does week8 `signin`
when the stored hash is malformed. -/
theorem verify_fail_closed_C3_counterexample :
    check_hash "x" "nothash" = Except.error () ∧
    signin [("u", "nothash", "user")] "u" "p" = Except.error () :=
  ⟨rfl, rfl⟩

/-- C3 (amended): week10/week11 `verify_password` is total and fail-closed:
it returns the comparison result whenever `bcrypt.checkpw` succeeds and
returns `false` (never raises) whenever `bcrypt.checkpw` errors, as on
malformed hash input; week7 `check_hash` and week8 `signin`, by contrast,
propagate the library error. -/
theorem verify_fail_closed_C3 (p h : String) :
    (∀ e, bcrypt_checkpw p h = Except.error e → verify_password p h = false) ∧
    (∀ b, bcrypt_checkpw p h = Except.ok b → verify_password p h = b) := by
  constructor <;> intro x hx <;> simp [verify_password, hx]

/-- C3 witness: `verify_password` on a malformed hash evaluates to
`false`. -/
theorem verify_fail_closed_C3_witness : verify_password "x" "nothash" = false :=
  (verify_fail_closed_C3 "x" "nothash").1 () rfl

/-- C4: hash/verify round trip. For every password and every salt the
hasher may draw, `verify_password p (hash_password p salt) = true` (and
week7's `check_hash`/`make_hash` pair agrees); for distinct passwords the
verification fails — exact in this model, where digest collisions between
distinct passwords are abstracted away. -/
theorem hash_verify_roundtrip_C4 (p p1 p2 : String) (salt : Nat) :
    verify_password p (hash_password p salt) = true ∧
    (p1 ≠ p2 → verify_password p1 (hash_password p2 salt) = false) ∧
    check_hash p (make_hash p salt) = Except.ok true := by
  refine ⟨?_, ?_, ?_⟩
  · rw [hash_password, verify_password_hashpw]
    simp
  · intro hne
    rw [hash_password, verify_password_hashpw]
    simp [hne]
  · rw [check_hash, make_hash, checkpw_hashpw]
    simp

/-- C4 witness: round trip at a concrete password/salt pair, and rejection
of a different password. -/
theorem hash_verify_roundtrip_C4_witness :
    verify_password "Abcdef1!" (hash_password "Abcdef1!" 3) = true ∧
    verify_password "abcdef1!" (hash_password "Abcdef1!" 3) = false :=
  ⟨(hash_verify_roundtrip_C4 "Abcdef1!" "abcdef1!" "Abcdef1!" 3).1,
   (hash_verify_roundtrip_C4 "Abcdef1!" "abcdef1!" "Abcdef1!" 3).2.1
     (by decide)⟩

/-- C9 counterexample to the claim as stated: the week9 `hash_password`
cited by the claim is unsalted sha256 and therefore deterministic — two
calls (two runs, whatever randomness the environment would offer) on the
same password return the identical string, not different ones. -/
theorem hash_nondeterminism_C9_counterexample :
    week9_hash_password 0 "Secret1!" = week9_hash_password 1 "Secret1!" :=
  rfl

/-- C9 (amended): for the bcrypt-backed hashers (week10/week11
`hash_password`, week7 `make_hash`), two calls on the same password with
the distinct salts independently drawn by `bcrypt.gensalt` yield
different opaque strings, and both verify against the password; the
week9 `hash_password`, by contrast, is unsalted sha256 and returns the
identical string on every run. -/
theorem hash_nondeterminism_C9 (p : String) (s1 s2 : Nat) (hne : s1 ≠ s2) :
    hash_password p s1 ≠ hash_password p s2 ∧
    make_hash p s1 ≠ make_hash p s2 ∧
    verify_password p (hash_password p s1) = true ∧
    verify_password p (hash_password p s2) = true ∧
    week9_hash_password s1 p = week9_hash_password s2 p := by
  have hd : bcrypt_hashpw p s1 ≠ bcrypt_hashpw p s2 := by
    intro hc
    exact hne (bcrypt_hashpw_inj p p s1 s2 hc).1
  refine ⟨hd, hd, ?_, ?_, rfl⟩ <;> rw [hash_password, verify_password_hashpw] <;>
    simp

/-- C9 witness: two concrete salts give distinct hashes of the same
password, both verifying. -/
theorem hash_nondeterminism_C9_witness :
    hash_password "Secret1!" 0 ≠ hash_password "Secret1!" 1 ∧
    verify_password "Secret1!" (hash_password "Secret1!" 0) = true :=
  ⟨(hash_nondeterminism_C9 "Secret1!" 0 1 (by decide)).1,
   (hash_nondeterminism_C9 "Secret1!" 0 1 (by decide)).2.2.1⟩

theorem space_not_word (l : List Char) (h : l.contains ' ' = true) :
    l.all isWordChar = false := by
  by_contra hc
  have hall : l.all isWordChar = true := by simpa using hc
  have hm : (' ' : Char) ∈ l := by
    simpa [List.contains] using h
  have := List.all_eq_true.mp hall ' ' hm
  exact absurd this (by decide)

/-- C5: username validation. Both implementations accept exactly the
strings of 3 to 20 characters drawn from `[A-Za-z0-9_]`; each evaluates
its checks in the claim's relative order (week10: empty, then length,
then character class; week7: length, then whitespace, then character
class — whitespace is not a separate check in week10, nor emptiness in
week7, each being subsumed by a later and an earlier check respectively)
and returns the first violated check's reason; the claim's concrete
examples behave as stated. -/
theorem username_validation_C5 (name : String) :
    ((validate_username name).1 = true ↔
      (3 ≤ name.length ∧ name.length ≤ 20 ∧ name.data.all isWordChar = true)) ∧
    ((username_ok name).1 = true ↔
      (3 ≤ name.length ∧ name.length ≤ 20 ∧ name.data.all isWordChar = true)) ∧
    (name.isEmpty = true →
      validate_username name = (false, "Username cannot be empty.")) ∧
    (name.isEmpty = false → name.length < 3 ∨ name.length > 20 →
      validate_username name = (false, "Username must be 3-20 characters.")) ∧
    (3 ≤ name.length → name.length ≤ 20 → name.data.all isWordChar = false →
      validate_username name = (false, "Only letters, numbers, and _ allowed.")) ∧
    (name.length < 3 ∨ name.length > 20 →
      username_ok name = (false, "Username must be between 3-20 characters.")) ∧
    (3 ≤ name.length → name.length ≤ 20 → name.data.contains ' ' = true →
      username_ok name = (false, "Username cannot contain spaces.")) ∧
    (3 ≤ name.length → name.length ≤ 20 → name.data.contains ' ' = false →
      name.data.all isWordChar = false →
      username_ok name
        = (false, "Username can contain only letters, numbers, and underscores.")) ∧
    (validate_username "ab").1 = false ∧ (validate_username "abc").1 = true ∧
    (validate_username "has space").1 = false ∧
    (validate_username "valid_123").1 = true ∧
    (validate_username "aaaaaaaaaaaaaaaaaaaaa").1 = false ∧
    (username_ok "ab").1 = false ∧ (username_ok "abc").1 = true ∧
    (username_ok "has space").1 = false ∧ (username_ok "valid_123").1 = true ∧
    (username_ok "aaaaaaaaaaaaaaaaaaaaa").1 = false := by
  have hdl : name.length = name.data.length := rfl
  refine ⟨?_, ?_, ?_, ?_, ?_, ?_, ?_, ?_, by decide, by decide, by decide,
    by decide, by decide, by decide, by decide, by decide, by decide, by decide⟩
  · by_cases h0 : name.isEmpty = true
    · obtain rfl : name = "" := (String.isEmpty_iff name).mp h0
      decide
    · have h0f : name.isEmpty = false := by simpa using h0
      by_cases h1 : name.length < 3 ∨ name.length > 20
      · have hc : ¬(3 ≤ name.length ∧ name.length ≤ 20 ∧
            name.data.all isWordChar = true) := by
          rintro ⟨a, b, _⟩
          omega
        rcases h1 with h | h <;>
          simp only [validate_username, h0f, Bool.false_eq_true, if_false] <;>
          rw [if_pos (by simp [h])] <;> simp <;> intro ha hb <;>
          exact absurd (And.intro ha hb) (by omega)
      · have hb : ¬(name.length < 3 || name.length > 20) = true := by
          simp
          omega
        by_cases h2 : name.data.all isWordChar = true
        · have hpos : (name.length > 0 && name.data.all isWordChar) = true := by
            simp [h2]
            omega
          simp only [validate_username, h0f, Bool.false_eq_true, if_false]
          rw [if_neg hb, if_neg (by simp [hpos])]
          simp [h2]
          omega
        · have h2f : name.data.all isWordChar = false := by simpa using h2
          have hpos : (name.length > 0 && name.data.all isWordChar) = false := by
            simp [h2f]
          simp only [validate_username, h0f, Bool.false_eq_true, if_false]
          rw [if_neg hb, if_pos (by simp [hpos])]
          simp [h2f]
  · by_cases h1 : name.length < 3 ∨ name.length > 20
    · have hc : ¬(3 ≤ name.length ∧ name.length ≤ 20 ∧
          name.data.all isWordChar = true) := by
        rintro ⟨a, b, _⟩
        omega
      have hlb : (!(3 ≤ name.length && name.length ≤ 20)) = true := by
        simp
        omega
      simp only [username_ok]
      rw [if_pos (by simp [hlb])]
      simp
      intro ha hb
      exact absurd (And.intro ha hb) (by omega)
    · have hlb : (!(3 ≤ name.length && name.length ≤ 20)) = false := by
        simp
        omega
      by_cases hsp : name.data.contains ' ' = true
      · have h2f := space_not_word name.data hsp
        simp only [username_ok]
        rw [if_neg (by simp [hlb]), if_pos hsp]
        simp [h2f]
      · have hspf : name.data.contains ' ' = false := by simpa using hsp
        have hnm : ¬ ((' ' : Char) ∈ name.data) := by
          simpa [List.contains] using hsp
        by_cases h2 : name.data.all isWordChar = true
        · have hpos : (name.length > 0 && name.data.all isWordChar) = true := by
            simp [h2]
            omega
          simp only [username_ok]
          rw [if_neg (by simp [hlb]), if_neg (by simp [hnm]),
            if_neg (by simp [hpos])]
          simp [h2]
          omega
        · have h2f : name.data.all isWordChar = false := by simpa using h2
          have hpos : (name.length > 0 && name.data.all isWordChar) = false := by
            simp [h2f]
          simp only [username_ok]
          rw [if_neg (by simp [hlb]), if_neg (by simp [hnm]),
            if_pos (by simp [hpos])]
          simp [h2f]
  · intro h0
    simp [validate_username, h0]
  · intro h0 h1
    simp only [validate_username, h0, Bool.false_eq_true, if_false]
    rw [if_pos (by simp; omega)]
  · intro hc1 hc2 h2
    have h0f : name.isEmpty = false := by
      rw [Bool.eq_false_iff]
      intro hc
      obtain rfl : name = "" := (String.isEmpty_iff name).mp hc
      simp at hc1
    have hpos : (name.length > 0 && name.data.all isWordChar) = false := by
      simp [h2]
    simp only [validate_username, h0f, Bool.false_eq_true, if_false]
    rw [if_neg (by simp; omega), if_pos (by simp [hpos])]
  · intro h1
    simp only [username_ok]
    rw [if_pos (by simp; omega)]
  · intro hc1 hc2 hsp
    simp only [username_ok]
    rw [if_neg (by simp; omega), if_pos hsp]
  · intro hc1 hc2 hspf h2
    have hnm : ¬ ((' ' : Char) ∈ name.data) := by
      simpa [List.contains] using hspf
    have hpos : (name.length > 0 && name.data.all isWordChar) = false := by
      simp [h2]
    simp only [username_ok]
    rw [if_neg (by simp; omega), if_neg (by simp [hnm]),
      if_pos (by simp [hpos])]

/-- C5 witness: the whitespace check evaluated through the theorem at
`"has space"`. -/
theorem username_validation_C5_witness :
    username_ok "has space" = (false, "Username cannot contain spaces.") :=
  (username_validation_C5 "has space").2.2.2.2.2.2.1 (by decide) (by decide)
    (by decide)

/-- C6: password validation. week10/week11 `validate_password` accepts
exactly the passwords of length ≥ 6 containing an uppercase letter, a
lowercase letter, a digit and a special character; week7 `password_ok`
additionally caps the length at 50. Both evaluate length, uppercase,
lowercase, digit, special in that fixed order and return the first
violated check's reason; `"abc123"` is rejected and `"Abcdef1!"`
accepted by both. -/
theorem password_validation_C6 (pw : String) :
    ((validate_password pw).1 = true ↔
      (6 ≤ pw.length ∧ hasUpper pw = true ∧ hasLower pw = true ∧
       hasDigit pw = true ∧ hasSpecial pw = true)) ∧
    ((password_ok pw).1 = true ↔
      (6 ≤ pw.length ∧ pw.length ≤ 50 ∧ hasUpper pw = true ∧
       hasLower pw = true ∧ hasDigit pw = true ∧ hasSpecial pw = true)) ∧
    (pw.length < 6 →
      validate_password pw = (false, "Password must be at least 6 characters.")) ∧
    (6 ≤ pw.length → hasUpper pw = false →
      validate_password pw = (false, "Must include uppercase letter.")) ∧
    (6 ≤ pw.length → hasUpper pw = true → hasLower pw = false →
      validate_password pw = (false, "Must include lowercase letter.")) ∧
    (6 ≤ pw.length → hasUpper pw = true → hasLower pw = true →
      hasDigit pw = false →
      validate_password pw = (false, "Must include number.")) ∧
    (6 ≤ pw.length → hasUpper pw = true → hasLower pw = true →
      hasDigit pw = true → hasSpecial pw = false →
      validate_password pw = (false, "Must include special character.")) ∧
    (¬(6 ≤ pw.length ∧ pw.length ≤ 50) →
      password_ok pw = (false, "Password must be 6-50 characters long.")) ∧
    (6 ≤ pw.length → pw.length ≤ 50 → hasUpper pw = false →
      password_ok pw = (false, "Include at least one uppercase letter.")) ∧
    (6 ≤ pw.length → pw.length ≤ 50 → hasUpper pw = true →
      hasLower pw = false →
      password_ok pw = (false, "Include at least one lowercase letter.")) ∧
    (6 ≤ pw.length → pw.length ≤ 50 → hasUpper pw = true →
      hasLower pw = true → hasDigit pw = false →
      password_ok pw = (false, "Include at least one number.")) ∧
    (6 ≤ pw.length → pw.length ≤ 50 → hasUpper pw = true →
      hasLower pw = true → hasDigit pw = true → hasSpecial pw = false →
      password_ok pw = (false, "Include at least one special character.")) ∧
    (validate_password "abc123").1 = false ∧
    (validate_password "Abcdef1!").1 = true ∧
    (password_ok "abc123").1 = false ∧ (password_ok "Abcdef1!").1 = true := by
  refine ⟨?_, ?_, ?_, ?_, ?_, ?_, ?_, ?_, ?_, ?_, ?_, ?_, by decide, by decide,
    by decide, by decide⟩
  · by_cases hl : pw.length < 6
    · simp only [validate_password]
      rw [if_pos hl]
      simp
      intro ha
      exact absurd ha (by omega)
    · rw [validate_password, if_neg hl]
      by_cases hu : hasUpper pw = true
      · rw [if_neg (by simp [hu])]
        by_cases hlo : hasLower pw = true
        · rw [if_neg (by simp [hlo])]
          by_cases hd : hasDigit pw = true
          · rw [if_neg (by simp [hd])]
            by_cases hs : hasSpecial pw = true
            · rw [if_neg (by simp [hs])]
              simp [hu, hlo, hd, hs]
              omega
            · rw [if_pos (by simpa using hs)]
              simp [hs]
          · rw [if_pos (by simpa using hd)]
            simp [hd]
        · rw [if_pos (by simpa using hlo)]
          simp [hlo]
      · rw [if_pos (by simpa using hu)]
        simp [hu]
  · by_cases hl : 6 ≤ pw.length ∧ pw.length ≤ 50
    · rw [password_ok, if_neg (by simp [hl.1, hl.2])]
      by_cases hu : hasUpper pw = true
      · rw [if_neg (by simp [hu])]
        by_cases hlo : hasLower pw = true
        · rw [if_neg (by simp [hlo])]
          by_cases hd : hasDigit pw = true
          · rw [if_neg (by simp [hd])]
            by_cases hs : hasSpecial pw = true
            · rw [if_neg (by simp [hs])]
              simp [hu, hlo, hd, hs, hl.1, hl.2]
            · rw [if_pos (by simpa using hs)]
              simp [hs]
          · rw [if_pos (by simpa using hd)]
            simp [hd]
        · rw [if_pos (by simpa using hlo)]
          simp [hlo]
      · rw [if_pos (by simpa using hu)]
        simp [hu]
    · rw [password_ok, if_pos (by simp; omega)]
      simp
      intro ha hb
      exact absurd (And.intro ha hb) (by omega)
  · intro hl
    rw [validate_password, if_pos hl]
  · intro hl hu
    rw [validate_password, if_neg (by omega), if_pos (by simp [hu])]
  · intro hl hu hlo
    rw [validate_password, if_neg (by omega), if_neg (by simp [hu]),
      if_pos (by simp [hlo])]
  · intro hl hu hlo hd
    rw [validate_password, if_neg (by omega), if_neg (by simp [hu]),
      if_neg (by simp [hlo]), if_pos (by simp [hd])]
  · intro hl hu hlo hd hs
    rw [validate_password, if_neg (by omega), if_neg (by simp [hu]),
      if_neg (by simp [hlo]), if_neg (by simp [hd]), if_pos (by simp [hs])]
  · intro hl
    rw [password_ok, if_pos (by simp; omega)]
  · intro hl hb hu
    rw [password_ok, if_neg (by simp [hl, hb]), if_pos (by simp [hu])]
  · intro hl hb hu hlo
    rw [password_ok, if_neg (by simp [hl, hb]), if_neg (by simp [hu]),
      if_pos (by simp [hlo])]
  · intro hl hb hu hlo hd
    rw [password_ok, if_neg (by simp [hl, hb]), if_neg (by simp [hu]),
      if_neg (by simp [hlo]), if_pos (by simp [hd])]
  · intro hl hb hu hlo hd hs
    rw [password_ok, if_neg (by simp [hl, hb]), if_neg (by simp [hu]),
      if_neg (by simp [hlo]), if_neg (by simp [hd]), if_pos (by simp [hs])]

/-- C6 witness: the uppercase check evaluated through the theorem at
`"abc123"`. -/
theorem password_validation_C6_witness :
    validate_password "abc123" = (false, "Must include uppercase letter.") :=
  (password_validation_C6 "abc123").2.2.2.1 (by decide) (by decide)

theorem strength_agrees (pw : String) :
    strength pw = check_password_strength pw := by
  have h5 := strengthScore_le_five pw
  by_cases h : strengthScore pw = 5
  · rw [strength, if_pos (by simp [h]), check_password_strength,
      if_neg (by omega), if_neg (by omega)]
  · by_cases h3 : 3 ≤ strengthScore pw
    · rw [strength, if_neg (by simp [h]), if_pos h3, check_password_strength,
        if_neg (by omega), if_pos (by omega)]
    · rw [strength, if_neg (by simp [h]), if_neg (by omega),
        check_password_strength, if_pos (by omega)]

/-- C8 counterexample (negation of the claim): there is no password on
which week7 `strength` and week10/week11 `check_password_strength`
disagree — the two mappings (`score == 5` → Strong / `score >= 3` →
Medium / else Weak, versus `score <= 2` → Weak / `score <= 4` → Medium /
else Strong) are extensionally the same function of the shared
five-criteria score. -/
theorem strength_mappings_C8_counterexample :
    ¬ ∃ pw : String, strength pw ≠ check_password_strength pw := by
  rintro ⟨pw, hne⟩
  exact hne (strength_agrees pw)

/-- C8 (amended): the week7 and week10/week11 strength mappings agree on
every password; the spec's claim that they differ is wrong — the
thresholds partition the score range {0..5} identically. -/
theorem strength_mappings_C8 : ∀ pw : String,
    strength pw = check_password_strength pw :=
  fun pw => strength_agrees pw

theorem token_hex_length (bytes : List (Fin 256)) :
    (token_hex bytes).length = 2 * bytes.length := by
  induction bytes with
  | nil => rfl
  | cons a t ih =>
    have : (token_hex (a :: t)).length
        = (byteToHex a).length + (token_hex t).length := by
      simp [token_hex, String.length, List.flatMap_cons]
    rw [this, ih]
    simp [byteToHex]
    omega

theorem token_hex_hexchars (bytes : List (Fin 256)) :
    ∀ c ∈ (token_hex bytes).data, (c.isDigit || ('a' ≤ c && c ≤ 'f')) = true := by
  have hdig : ∀ m : Fin 16,
      ((hexDigitChar m.val).isDigit || ('a' ≤ hexDigitChar m.val &&
        hexDigitChar m.val ≤ 'f')) = true := by decide
  have hbyte : ∀ x : Fin 256, ∀ c ∈ byteToHex x,
      (c.isDigit || ('a' ≤ c && c ≤ 'f')) = true := by
    intro x c hc
    have hx := x.isLt
    rcases List.mem_cons.mp hc with h | h
    · subst h
      exact hdig ⟨x.val / 16, by omega⟩
    · rcases List.mem_cons.mp h with h2 | h2
      · subst h2
        exact hdig ⟨x.val % 16, by omega⟩
      · simp at h2
  induction bytes with
  | nil => intro c hc; simp [token_hex] at hc
  | cons a t ih =>
    intro c hc
    simp only [token_hex, List.flatMap_cons] at hc
    rcases List.mem_append.mp hc with h | h
    · exact hbyte a c h
    · exact ih c h

theorem hexDigitChar_inj (m n : Fin 16)
    (h : hexDigitChar m.val = hexDigitChar n.val) : m = n := by
  revert h
  revert m n
  decide

theorem byte_eq_of_hex (a b : Fin 256)
    (h1 : hexDigitChar (a.val / 16) = hexDigitChar (b.val / 16))
    (h2 : hexDigitChar (a.val % 16) = hexDigitChar (b.val % 16)) : a = b := by
  have ha := a.isLt
  have hb := b.isLt
  have hd1 : a.val / 16 = b.val / 16 :=
    congrArg Fin.val (hexDigitChar_inj ⟨a.val / 16, by omega⟩
      ⟨b.val / 16, by omega⟩ h1)
  have hd2 : a.val % 16 = b.val % 16 :=
    congrArg Fin.val (hexDigitChar_inj ⟨a.val % 16, by omega⟩
      ⟨b.val % 16, by omega⟩ h2)
  apply Fin.ext
  omega

theorem token_hex_inj (b1 b2 : List (Fin 256))
    (h : token_hex b1 = token_hex b2) : b1 = b2 := by
  have hd : b1.flatMap byteToHex = b2.flatMap byteToHex := congrArg String.data h
  clear h
  induction b1 generalizing b2 with
  | nil =>
    cases b2 with
    | nil => rfl
    | cons b t2 => simp [byteToHex, List.flatMap_cons] at hd
  | cons a t1 ih =>
    cases b2 with
    | nil => simp [byteToHex, List.flatMap_cons] at hd
    | cons b t2 =>
      simp only [List.flatMap_cons, byteToHex, List.cons_append,
        List.nil_append, List.cons.injEq] at hd
      obtain ⟨h1, h2, h3⟩ := hd
      rw [byte_eq_of_hex a b h1 h2, ih t2 h3]

/-- C7 counterexample to the claim as stated: week10 `create_session`
(a cited implementation of issue) returns a token but stores nothing — no
`(username, token, now)` record appears in the session store after the
call. -/
theorem session_issuance_C7_counterexample :
    (create_session [] "alice" (List.replicate 16 0)).2 = ([] : Sessions) ∧
    ¬ ∃ rec, rec ∈ (create_session [] "alice" (List.replicate 16 0)).2 := by
  refine ⟨rfl, ?_⟩
  rintro ⟨rec, hrec⟩
  simp [create_session] at hrec

/-- C7 (amended): week7 `new_session` hex-encodes the 20 random bytes
drawn by `secrets.token_hex(20)` into a 40-hex-digit token (160 ≥ 128
bits) and appends `(user, token, now)` to the session store; week10
`create_session` hex-encodes 16 random bytes into a 32-hex-digit token
(128 bits) but stores nothing. Hex encoding is injective, so the token
carries the full entropy of the drawn bytes. -/
theorem session_issuance_C7 (sessions : Sessions) (user : String)
    (bytes20 bytes16 : List (Fin 256)) (now : Int)
    (h20 : bytes20.length = 20) (h16 : bytes16.length = 16) :
    (new_session sessions user bytes20 now).1 = token_hex bytes20 ∧
    (token_hex bytes20).length = 40 ∧
    (new_session sessions user bytes20 now).2
      = sessions ++ [(user, token_hex bytes20, now)] ∧
    (create_session sessions user bytes16).1 = token_hex bytes16 ∧
    (token_hex bytes16).length = 32 ∧
    (create_session sessions user bytes16).2 = sessions ∧
    (∀ c ∈ (token_hex bytes20).data,
      (c.isDigit || ('a' ≤ c && c ≤ 'f')) = true) ∧
    (∀ b1 b2 : List (Fin 256), token_hex b1 = token_hex b2 → b1 = b2) := by
  refine ⟨rfl, ?_, rfl, rfl, ?_, rfl, token_hex_hexchars bytes20, token_hex_inj⟩
  · rw [token_hex_length, h20]
  · rw [token_hex_length, h16]

/-- C7 witness: the theorem evaluated on concrete byte draws. -/
theorem session_issuance_C7_witness :
    (new_session [] "alice" (List.replicate 20 7) 5).2
      = [("alice", token_hex (List.replicate 20 7), 5)] ∧
    (token_hex (List.replicate 16 7)).length = 32 :=
  ⟨(session_issuance_C7 [] "alice" (List.replicate 20 7)
      (List.replicate 16 7) 5 (by simp) (by simp)).2.2.1,
   (session_issuance_C7 [] "alice" (List.replicate 20 7)
      (List.replicate 16 7) 5 (by simp) (by simp)).2.2.2.2.1⟩
